import Mathlib

/-!
Verification of the `modulio_hotelcore` room-core: the room state machine
(`hotel_room.py`), the blocking/availability resolver
(`hotel_room_blocking.py`) and the status-history ledger
(`hotel_room_status_history.py`), shallowly embedded in Lean.

Modelling conventions:
* Each Odoo `Selection` field becomes an inductive type whose constructors
  are exactly the selection keys declared in the source, in source order.
* An Odoo record becomes a structure holding the fields the core logic
  reads or writes; a recordset write `rec.write(vals)` becomes a function
  from the record and a vals structure (one `Option` per key that appears
  at some call site) to `Except Err`-wrapped results.  Odoo raises
  `ValueError` when `vals` carries a key that is not a field of the model
  (`Err.invalidField`) and when a selection field receives a value outside
  its declared options (`Err.invalidSelection`); `ValidationError` becomes
  `Err.validation` / `Err.overlapConflict`.
* The persistent store is a `DB` structure; every operation takes and
  returns a `DB` inside `Except Err`.  An `Except.error` result models the
  Odoo behaviour that an uncaught exception rolls the transaction back:
  no part of the store changes.
* Dates are integers (day numbers); only `≤` comparisons matter.
  `fields.Datetime.now()` is modelled by the `DB.now` counter.
-/

namespace HotelCore

/-- The `state` selection of `hotel.room` (hotel_room.py lines 71-88):
nine values. -/
inductive RoomState where
  | clean
  | check_in
  | check_out
  | dirty
  | make_up_room
  | inspected
  | out_of_service
  | out_of_order
  | house_use
deriving DecidableEq, Repr

/-- The `blocking_type` selection of `hotel.room.blocking`
(hotel_room_blocking.py lines 68-75), also used for the room's
`blocking_type` field (hotel_room.py lines 102-109). -/
inductive BlockingType where
  | maintenance
  | event
  | out_of_order
  | renovation
  | other
deriving DecidableEq, Repr

/-- The `status` selection of `hotel.room.blocking`
(hotel_room_blocking.py lines 88-94). -/
inductive BlockingStatus where
  | planned
  | active
  | completed
  | cancelled
deriving DecidableEq, Repr

/-- The `old_state`/`new_state` selection of `hotel.room.status.history`
(hotel_room_status_history.py lines 53-71).  Note: it has only seven
values — `check_in` and `check_out` are absent, unlike the room's own
`state` selection. -/
inductive HistState where
  | clean
  | dirty
  | make_up_room
  | inspected
  | out_of_service
  | out_of_order
  | house_use
deriving DecidableEq, Repr

/-- The `change_type` selection of `hotel.room.status.history`
(hotel_room_status_history.py lines 42-49). -/
inductive ChangeType where
  | fo
  | hk
  | mt
  | blocking
  | system
  | other
deriving DecidableEq, Repr

/-- Conversion of a room `state` key to the history selection: Odoo
accepts the value only when it is one of the declared selection options,
so `check_in` and `check_out` have no image. -/
def histStateOf : RoomState → Option HistState
  | .clean => some .clean
  | .check_in => none
  | .check_out => none
  | .dirty => some .dirty
  | .make_up_room => some .make_up_room
  | .inspected => some .inspected
  | .out_of_service => some .out_of_service
  | .out_of_order => some .out_of_order
  | .house_use => some .house_use

/-- The selection key string of a room state, as interpolated into the
source's error messages. -/
def RoomState.toKey : RoomState → String
  | .clean => ("clean")
  | .check_in => ("check_in")
  | .check_out => ("check_out")
  | .dirty => ("dirty")
  | .make_up_room => ("make_up_room")
  | .inspected => ("inspected")
  | .out_of_service => ("out_of_service")
  | .out_of_order => ("out_of_order")
  | .house_use => ("house_use")

/-- A `hotel.room` record: the fields the core state machine and the
blocking resolver read or write.  The model defines no
`housekeeping_state` field — the source converged on the single `state`
field (hotel_room.py lines 70-88). -/
structure Room where
  id : Nat
  room_number : String
  state : RoomState
  maintenance_required : Bool
  last_status_change : Nat
  status_change_reason : Option String
  blocking_type : Option BlockingType
  blocking_reason : Option String
deriving DecidableEq, Repr

/-- A `hotel.room.blocking` record (hotel_room_blocking.py). -/
structure Blocking where
  id : Nat
  name : String
  room_id : Nat
  start_date : Int
  end_date : Int
  blocking_type : BlockingType
  status : BlockingStatus
  reason : Option String
deriving DecidableEq, Repr

/-- A `hotel.room.status.history` record (hotel_room_status_history.py):
the fields written by `create_status_change`. -/
structure HistoryEntry where
  room_id : Nat
  change_type : ChangeType
  old_state : Option HistState
  new_state : Option HistState
  old_maintenance_required : Bool
  new_maintenance_required : Bool
  change_reason : String
  change_method : String
  change_date : Nat
deriving DecidableEq, Repr

/-- Errors surfaced by the core.  `validation` is Odoo's
`ValidationError`; `overlapConflict` is the `ValidationError` raised by
`_check_room_availability`, carrying the ids of the conflicting blockings
that the source formats into its message; `invalidField` is the
`ValueError` Odoo raises when `write`/`create` vals name a key that is
not a field of the model; `invalidSelection` is the `ValueError` raised
when a selection field receives a value outside its declared options. -/
inductive Err where
  | validation (msg : String)
  | overlapConflict (conflicts : List Nat)
  | invalidField (fieldName : String)
  | invalidSelection (fieldName : String)
deriving DecidableEq, Repr

/-- The persistent store plus the two configuration parameters
(`ir.config_parameter`) and the caller's group memberships checked by
`_check_front_office_access` / `_check_housekeeping_access`. -/
structure DB where
  now : Nat := 0
  rooms : List Room := []
  blockings : List Blocking := []
  history : List HistoryEntry := []
  next_blocking_id : Nat := 1
  require_inspected_to_sell : Bool := false
  event_closes_inventory : Bool := false
  fo_access : Bool := true
  hk_access : Bool := true
deriving DecidableEq, Repr

def getRoom (db : DB) (roomId : Nat) : Option Room :=
  db.rooms.find? (fun r => r.id == roomId)

def setRoom (db : DB) (roomId : Nat) (r : Room) : DB :=
  { db with rooms := db.rooms.map (fun x => if x.id == roomId then r else x) }

def getBlocking (db : DB) (bid : Nat) : Option Blocking :=
  db.blockings.find? (fun b => b.id == bid)

def setBlocking (db : DB) (bid : Nat) (b : Blocking) : DB :=
  { db with blockings := db.blockings.map (fun x => if x.id == bid then b else x) }

/-- The vals dictionaries passed to `hotel.room.write` anywhere in the
source: each field is `some v` when the key is present.  The
`housekeeping_state` component records that the literal key
`'housekeeping_state'` is in the dictionary — the blocking resolver still
writes it (hotel_room_blocking.py lines 180, 182, 189, 204, 209, 270,
275, 286, 297) although `hotel.room` defines no such field. -/
structure RoomWriteVals where
  state : Option RoomState := none
  maintenance_required : Option Bool := none
  status_change_reason : Option (Option String) := none
  last_status_change : Option Nat := none
  blocking_type : Option (Option BlockingType) := none
  blocking_reason : Option (Option String) := none
  housekeeping_state : Option RoomState := none
deriving DecidableEq, Repr

/-- `hotel.room.write` (hotel_room.py lines 244-249) on one record: Odoo
rejects a key that is not a field of the model with `ValueError`;
otherwise each present key overwrites the field, and the override stamps
`last_status_change` whenever `state` is in vals. -/
def Room.write (now : Nat) (room : Room) (vals : RoomWriteVals) : Except Err Room :=
  if vals.housekeeping_state.isSome then
    .error (.invalidField ("housekeeping_state"))
  else
    .ok { room with
      state := vals.state.getD room.state
      maintenance_required := vals.maintenance_required.getD room.maintenance_required
      status_change_reason := vals.status_change_reason.getD room.status_change_reason
      blocking_type := vals.blocking_type.getD room.blocking_type
      blocking_reason := vals.blocking_reason.getD room.blocking_reason
      last_status_change :=
        if vals.state.isSome then now else vals.last_status_change.getD room.last_status_change }

/-- Write to the room referenced by a blocking; the call sites guard with
`if record.room_id:`, so a dangling reference is a silent skip. -/
def roomWriteInDB (db : DB) (roomId : Nat) (vals : RoomWriteVals) : Except Err DB :=
  match getRoom db roomId with
  | none => .ok db
  | some room => do
      let r ← Room.write db.now room vals
      .ok (setRoom db roomId r)

/-- `is_sellable` (hotel_room.py lines 692-712): clean or inspected, the
`require_inspected_to_sell` parameter honoured, and no blocking of this
room with status `active`. -/
def is_sellable (db : DB) (room : Room) : Bool :=
  if !(room.state == RoomState.clean || room.state == RoomState.inspected) then
    false
  else if db.require_inspected_to_sell && !(room.state == RoomState.inspected) then
    false
  else if !((db.blockings.filter
      (fun b => b.room_id == room.id && b.status == BlockingStatus.active)).isEmpty) then
    false
  else
    true

/-- `_validate_dates` (hotel_room_blocking.py lines 214-224). -/
def validate_dates (s e : Int) : Except Err Unit :=
  if s > e then
    .error (.validation ("Start date must be before or equal to end date."))
  else
    .ok ()

/-- The search domain of `_check_room_availability`
(hotel_room_blocking.py lines 231-239): same room, status `planned` or
`active`, `start_date <= end_date_new` and `end_date >= start_date_new`,
optionally excluding one record id. -/
def conflictingBlockings (db : DB) (roomId : Nat) (s e : Int)
    (excludeId : Option Nat) : List Blocking :=
  db.blockings.filter (fun b =>
    b.room_id == roomId
      && (b.status == BlockingStatus.planned || b.status == BlockingStatus.active)
      && decide (b.start_date ≤ e) && decide (s ≤ b.end_date)
      && (match excludeId with
          | some x => b.id != x
          | none => true))

/-- `_check_room_availability` (hotel_room_blocking.py lines 226-250):
raises a `ValidationError` listing every conflicting blocking when the
search finds any. -/
def check_room_availability (db : DB) (roomId : Nat) (s e : Int)
    (excludeId : Option Nat) : Except Err Unit :=
  if (conflictingBlockings db roomId s e excludeId).isEmpty then .ok ()
  else .error (.overlapConflict
    ((conflictingBlockings db roomId s e excludeId).map (fun b => b.id)))

/-- The vals dictionary of `hotel.room.blocking` a create call passes
(hotel_room_blocking.py): `start_date`, `end_date`, `room_id`, `name` and
`blocking_type` are required fields; `status` defaults to `planned`. -/
structure BlockingCreateVals where
  name : String
  room_id : Nat
  start_date : Int
  end_date : Int
  blocking_type : BlockingType
  status : BlockingStatus := .planned
  reason : Option String := none
deriving DecidableEq, Repr

/-- `hotel.room.blocking.create` (hotel_room_blocking.py lines 137-144):
validates the dates, checks conflicts, then inserts the record.  The
room-impact side effects live only in `write`, so creating directly in
status `active` does not touch the room. -/
def blockingCreate (db : DB) (v : BlockingCreateVals) : Except Err DB := do
  validate_dates v.start_date v.end_date
  check_room_availability db v.room_id v.start_date v.end_date none
  .ok { db with
    blockings := db.blockings ++
      [{ id := db.next_blocking_id, name := v.name, room_id := v.room_id,
         start_date := v.start_date, end_date := v.end_date,
         blocking_type := v.blocking_type, status := v.status, reason := v.reason }]
    next_blocking_id := db.next_blocking_id + 1 }

/-- The vals dictionaries passed to `hotel.room.blocking.write` in the
source. -/
structure BlockingWriteVals where
  status : Option BlockingStatus := none
  blocking_type : Option BlockingType := none
  start_date : Option Int := none
  end_date : Option Int := none
  room_id : Option Nat := none
  reason : Option (Option String) := none
deriving DecidableEq, Repr

def Blocking.applyVals (b : Blocking) (vals : BlockingWriteVals) : Blocking :=
  { b with
    status := vals.status.getD b.status
    blocking_type := vals.blocking_type.getD b.blocking_type
    start_date := vals.start_date.getD b.start_date
    end_date := vals.end_date.getD b.end_date
    room_id := vals.room_id.getD b.room_id
    reason := vals.reason.getD b.reason }

/-- The room vals built when a blocking becomes (or re-applies being)
`active` (hotel_room_blocking.py lines 174-182, 197-209, 261-276): always
`blocking_type` and `blocking_reason` (`record.reason or record.name`);
the `housekeeping_state` key is added unless the type is `event` and the
`event_closes_inventory` parameter is off. -/
def activationImpactVals (flag : Bool) (b : Blocking) : RoomWriteVals :=
  { blocking_type := some (some b.blocking_type)
    blocking_reason := some (some (b.reason.getD b.name))
    housekeeping_state :=
      if b.blocking_type == BlockingType.event then
        (if flag then some RoomState.out_of_service else none)
      else some RoomState.out_of_service }

/-- The room vals built when a blocking leaves `active`
(hotel_room_blocking.py lines 186-192): reset the housekeeping indicator
to `inspected` and clear the blocking info. -/
def deactivationImpactVals : RoomWriteVals :=
  { housekeeping_state := some RoomState.inspected
    blocking_type := some none
    blocking_reason := some none }

/-- `hotel.room.blocking.write` (hotel_room_blocking.py lines 146-212) on
one record: re-validate dates/conflicts when dates or room change, apply
the vals, then — when `status` or `blocking_type` is in vals — run the
three room-impact conditionals of the source (transition into `active`,
transition out of `active`, type change while `active`). -/
def blockingWrite (db : DB) (bid : Nat) (vals : BlockingWriteVals) : Except Err DB := do
  match getBlocking db bid with
  | none => .error (.validation ("Blocking not found"))
  | some b =>
    if vals.start_date.isSome || vals.end_date.isSome || vals.room_id.isSome then do
      let s := vals.start_date.getD b.start_date
      let e := vals.end_date.getD b.end_date
      let r := vals.room_id.getD b.room_id
      validate_dates s e
      check_room_availability db r s e (some bid)
    else
      .ok ()
    let b1 := b.applyVals vals
    let db₁ := setBlocking db bid b1
    if vals.status.isSome || vals.blocking_type.isSome then do
      let flag := db.event_closes_inventory
      let db₂ ←
        if b.status != BlockingStatus.active && b1.status == BlockingStatus.active then
          roomWriteInDB db₁ b1.room_id (activationImpactVals flag b1)
        else pure db₁
      let db₃ ←
        if b.status == BlockingStatus.active && b1.status != BlockingStatus.active then
          roomWriteInDB db₂ b1.room_id deactivationImpactVals
        else pure db₂
      let db₄ ←
        if b1.status == BlockingStatus.active && b.status == BlockingStatus.active
            && b.blocking_type != b1.blocking_type then
          roomWriteInDB db₃ b1.room_id (activationImpactVals flag b1)
        else pure db₃
      .ok db₄
    else
      .ok db₁

/-- `action_activate` (hotel_room_blocking.py lines 252-278): write
status `active` (which already triggers the write-override impact), then
re-apply the room update from the action body. -/
def action_activate (db : DB) (bid : Nat) : Except Err DB := do
  let db₁ ← blockingWrite db bid { status := some BlockingStatus.active }
  match getBlocking db₁ bid with
  | none => .ok db₁
  | some b => roomWriteInDB db₁ b.room_id (activationImpactVals db₁.event_closes_inventory b)

/-- `action_complete` (hotel_room_blocking.py lines 280-289): write
status `completed`, then reset the room from the action body. -/
def action_complete (db : DB) (bid : Nat) : Except Err DB := do
  let db₁ ← blockingWrite db bid { status := some BlockingStatus.completed }
  match getBlocking db₁ bid with
  | none => .ok db₁
  | some b => roomWriteInDB db₁ b.room_id deactivationImpactVals

/-- `action_cancel` (hotel_room_blocking.py lines 291-300). -/
def action_cancel (db : DB) (bid : Nat) : Except Err DB := do
  let db₁ ← blockingWrite db bid { status := some BlockingStatus.cancelled }
  match getBlocking db₁ bid with
  | none => .ok db₁
  | some b => roomWriteInDB db₁ b.room_id deactivationImpactVals

/-- `get_room_availability` (hotel_room_blocking.py lines 302-324):
collect the planned/active blockings of the room overlapping the range;
available iff none of them closes inventory, every type closing inventory
except `event` when `event_closes_inventory` is off.  (The source's early
return for missing dates is unreachable here: the embedding always passes
both dates.) -/
def get_room_availability (db : DB) (roomId : Nat) (s e : Int) :
    Bool × List Blocking :=
  let blockings := db.blockings.filter (fun b =>
    b.room_id == roomId
      && (b.status == BlockingStatus.planned || b.status == BlockingStatus.active)
      && decide (b.start_date ≤ e) && decide (s ≤ b.end_date))
  let closing := blockings.filter (fun b =>
    !(b.blocking_type == BlockingType.event)
      || (b.blocking_type == BlockingType.event && db.event_closes_inventory))
  (closing.length == 0, blockings)

/-- The vals dictionary built for `hotel.room.status.history.create`
(hotel_room_status_history.py lines 232-244): `change_type` is always
supplied by `create_status_change`, the state and maintenance values come
from `dict.get` and may be absent. -/
structure HistoryCreateVals where
  room_id : Nat
  change_type : ChangeType
  old_state : Option RoomState := none
  new_state : Option RoomState := none
  old_maintenance_required : Option Bool := none
  new_maintenance_required : Option Bool := none
  change_reason : String := ("")
  change_method : String := ("")
deriving DecidableEq, Repr

/-- `_has_actual_changes` (hotel_room_status_history.py lines 218-223):
compares the raw vals entries. -/
def has_actual_changes (v : HistoryCreateVals) : Bool :=
  v.old_state != v.new_state
    || v.old_maintenance_required != v.new_maintenance_required

/-- Odoo's selection validation for the history `old_state`/`new_state`
fields: a present value must be one of the seven declared options, else
`ValueError`. -/
def histSelect (fieldName : String) :
    Option RoomState → Except Err (Option HistState)
  | none => .ok none
  | some s =>
    match histStateOf s with
    | some h => .ok (some h)
    | none => .error (.invalidSelection fieldName)

/-- `hotel.room.status.history.create`
(hotel_room_status_history.py lines 195-207): reject a record with no
actual change, then store it — subject to the selection validation of the
state columns.  Odoo stores an absent Boolean as `False`. -/
def historyCreate (db : DB) (v : HistoryCreateVals) : Except Err DB := do
  if !(has_actual_changes v) then
    .error (.validation ("No actual changes detected. History record not created."))
  else do
    let o ← histSelect ("old_state") v.old_state
    let n ← histSelect ("new_state") v.new_state
    .ok { db with
      history := db.history ++
        [{ room_id := v.room_id, change_type := v.change_type,
           old_state := o, new_state := n,
           old_maintenance_required := v.old_maintenance_required.getD false,
           new_maintenance_required := v.new_maintenance_required.getD false,
           change_reason := v.change_reason, change_method := v.change_method,
           change_date := db.now }] }

/-- `create_status_change` (hotel_room_status_history.py lines 225-246)
as invoked by every room transition: old/new dictionaries always carry
`state` and `maintenance_required`. -/
def create_status_change (db : DB) (roomId : Nat) (ctype : ChangeType)
    (oldSt : RoomState) (oldM : Bool) (newSt : RoomState) (newM : Bool)
    (reason method : String) : Except Err DB :=
  historyCreate db
    { room_id := roomId, change_type := ctype,
      old_state := some oldSt, new_state := some newSt,
      old_maintenance_required := some oldM, new_maintenance_required := some newM,
      change_reason := reason, change_method := method }

/-- The shared body of the eleven transition actions of `hotel.room`
(hotel_room.py lines 304-690): access check, state guard (raising with
the action-specific message plus the current state), the room write
(state, optional `maintenance_required`, reason, timestamp), then exactly
one `create_status_change` with before/after snapshots. -/
def roomTransition (db : DB) (roomId : Nat) (accessOk : Bool)
    (accessMsg : String) (validFrom : List RoomState) (target : RoomState)
    (maint : Option Bool) (ctype : ChangeType) (reason method guardMsg : String) :
    Except Err DB := do
  match getRoom db roomId with
  | none => .error (.validation ("Room not found"))
  | some room =>
    if accessOk = false then
      .error (.validation accessMsg)
    else if room.state ∉ validFrom then
      .error (.validation (guardMsg ++ room.state.toKey))
    else do
      let room1 ← Room.write db.now room
        { state := some target, maintenance_required := maint,
          status_change_reason := some (some reason),
          last_status_change := some db.now }
      let db₁ := setRoom db roomId room1
      create_status_change db₁ roomId ctype room.state room.maintenance_required
        target room1.maintenance_required reason method

/-- `action_assign_house_use` (hotel_room.py lines 304-337). -/
def action_assign_house_use (db : DB) (roomId : Nat) (staff_name notes : String) :
    Except Err DB :=
  roomTransition db roomId db.fo_access
    ("Access denied: Front Office permission required")
    [RoomState.clean, RoomState.inspected] RoomState.house_use none ChangeType.fo
    ("House Use: " ++ staff_name ++ (". ") ++ notes) ("action_assign_house_use")
    ("Room must be clean or inspected to assign to house use. Current state: ")

/-- `action_staff_checkout` (hotel_room.py lines 339-372). -/
def action_staff_checkout (db : DB) (roomId : Nat) (staff_name notes : String) :
    Except Err DB :=
  roomTransition db roomId db.fo_access
    ("Access denied: Front Office permission required")
    [RoomState.house_use] RoomState.dirty none ChangeType.fo
    ("Staff Check-out: " ++ staff_name ++ (". ") ++ notes) ("action_staff_checkout")
    ("Room must be in house use to check-out staff. Current state: ")

/-- `action_check_in` (hotel_room.py lines 374-407). -/
def action_check_in (db : DB) (roomId : Nat) (guest_name notes : String) :
    Except Err DB :=
  roomTransition db roomId db.fo_access
    ("Access denied: Front Office permission required")
    [RoomState.clean, RoomState.inspected] RoomState.check_in none ChangeType.fo
    ("Guest Check-in: " ++ guest_name ++ (". ") ++ notes) ("action_check_in")
    ("Room must be clean or inspected to check in guest. Current state: ")

/-- `action_check_out` (hotel_room.py lines 409-442). -/
def action_check_out (db : DB) (roomId : Nat) (guest_name notes : String) :
    Except Err DB :=
  roomTransition db roomId db.fo_access
    ("Access denied: Front Office permission required")
    [RoomState.check_in] RoomState.check_out none ChangeType.fo
    ("Guest Check-out: " ++ guest_name ++ (". ") ++ notes) ("action_check_out")
    ("Room must be checked in to checkout guest. Current state: ")

/-- `action_room_ready_for_cleaning` (hotel_room.py lines 444-477). -/
def action_room_ready_for_cleaning (db : DB) (roomId : Nat) (notes : String) :
    Except Err DB :=
  roomTransition db roomId db.fo_access
    ("Access denied: Front Office permission required")
    [RoomState.check_out] RoomState.dirty none ChangeType.fo
    ("Room ready for cleaning. " ++ notes) ("action_room_ready_for_cleaning")
    ("Room must be checked out to mark ready for cleaning. Current state: ")

/-- `action_start_cleaning` (hotel_room.py lines 479-512). -/
def action_start_cleaning (db : DB) (roomId : Nat) (notes : String) :
    Except Err DB :=
  roomTransition db roomId db.hk_access
    ("Access denied: Housekeeping permission required")
    [RoomState.dirty] RoomState.make_up_room none ChangeType.hk
    ("Started cleaning. " ++ notes) ("action_start_cleaning")
    ("Room must be dirty to start cleaning. Current state: ")

/-- `action_finish_cleaning` (hotel_room.py lines 514-547). -/
def action_finish_cleaning (db : DB) (roomId : Nat) (notes : String) :
    Except Err DB :=
  roomTransition db roomId db.hk_access
    ("Access denied: Housekeeping permission required")
    [RoomState.make_up_room] RoomState.inspected none ChangeType.hk
    ("Finished cleaning. " ++ notes) ("action_finish_cleaning")
    ("Room must be in make up room to finish cleaning. Current state: ")

/-- `action_final_inspection` (hotel_room.py lines 549-582). -/
def action_final_inspection (db : DB) (roomId : Nat) (notes : String) :
    Except Err DB :=
  roomTransition db roomId db.hk_access
    ("Access denied: Housekeeping permission required")
    [RoomState.inspected] RoomState.clean none ChangeType.hk
    ("Final inspection passed. " ++ notes) ("action_final_inspection")
    ("Room must be inspected to pass final inspection. Current state: ")

/-- `action_maintenance_light` (hotel_room.py lines 584-618). -/
def action_maintenance_light (db : DB) (roomId : Nat) (notes : String) :
    Except Err DB :=
  roomTransition db roomId db.hk_access
    ("Access denied: Housekeeping permission required")
    [RoomState.clean] RoomState.out_of_service (some true) ChangeType.hk
    ("Light maintenance started. " ++ notes) ("action_maintenance_light")
    ("Room must be clean to put under light maintenance. Current state: ")

/-- `action_maintenance_heavy` (hotel_room.py lines 620-654). -/
def action_maintenance_heavy (db : DB) (roomId : Nat) (notes : String) :
    Except Err DB :=
  roomTransition db roomId db.hk_access
    ("Access denied: Housekeeping permission required")
    [RoomState.clean] RoomState.out_of_order (some true) ChangeType.hk
    ("Heavy maintenance started. " ++ notes) ("action_maintenance_heavy")
    ("Room must be clean to put under heavy maintenance. Current state: ")

/-- `action_complete_maintenance` (hotel_room.py lines 656-690). -/
def action_complete_maintenance (db : DB) (roomId : Nat) (notes : String) :
    Except Err DB :=
  roomTransition db roomId db.hk_access
    ("Access denied: Housekeeping permission required")
    [RoomState.out_of_service, RoomState.out_of_order] RoomState.clean (some false)
    ChangeType.hk
    ("Maintenance completed. " ++ notes) ("action_complete_maintenance")
    ("Room must be under maintenance to complete. Current state: ")

/-- The state whitelist of `set_state` (hotel_room.py line 259), which is
also the state list of `action_calendar_drop` (hotel_room.py line 860). -/
def setStateAllowed : List RoomState :=
  [RoomState.clean, RoomState.dirty, RoomState.make_up_room, RoomState.inspected,
   RoomState.out_of_service, RoomState.out_of_order, RoomState.house_use]

/-- `set_state` (hotel_room.py lines 256-262): whitelist check, then a
bare `write` of the state — no transition-table check and no history
record. -/
def set_state (db : DB) (roomId : Nat) (new_state : RoomState) : Except Err DB := do
  match getRoom db roomId with
  | none => .error (.validation ("Room not found"))
  | some room =>
    if new_state ∉ setStateAllowed then
      .error (.validation ("Invalid state: " ++ new_state.toKey))
    else do
      let r ← Room.write db.now room { state := some new_state }
      .ok (setRoom db roomId r)

/-- The `new_state` argument of `action_calendar_drop` is a free string:
either a state key, the literal `'blocked'`, or anything else. -/
inductive CalDropTarget where
  | state (s : RoomState)
  | blocked
  | otherKey (s : String)
deriving DecidableEq, Repr

/-- `action_calendar_drop` (hotel_room.py lines 856-881): a state key in
the seven-state list changes the room state through `set_state` (plus a
reason write when a reason is given); `'blocked'` creates a maintenance
blocking; any other string is a silent no-op. -/
def action_calendar_drop (db : DB) (roomId : Nat) (target : CalDropTarget)
    (sd ed : Int) (reason : String) : Except Err DB :=
  match target with
  | .state s =>
    if s ∈ setStateAllowed then do
      let db₁ ← set_state db roomId s
      if reason != ("") then
        match getRoom db₁ roomId with
        | none => .ok db₁
        | some room => do
          let r ← Room.write db₁.now room
            { status_change_reason := some (some reason),
              last_status_change := some db₁.now }
          .ok (setRoom db₁ roomId r)
      else
        .ok db₁
    else
      .ok db
  | .blocked =>
    blockingCreate db
      { name := ("Blocking for " ++ (((getRoom db roomId).map
          (fun r => r.room_number)).getD (""))),
        room_id := roomId, start_date := sd, end_date := ed,
        blocking_type := BlockingType.maintenance,
        reason := some (if reason != ("") then reason
          else ("Room blocked from calendar")) }
  | .otherKey _ => .ok db

/-- C1: `is_sellable(room)` is true iff the room state is `clean` or
`inspected`, and (`require_inspected_to_sell` is off or the state is
`inspected`), and no blocking interval of the room has status `active`.
The predicate is a pure function of the store — it mutates nothing by
construction. -/
theorem is_sellable_iff_spec (db : DB) (room : Room) :
    is_sellable db room = true ↔
      ((room.state = RoomState.clean ∨ room.state = RoomState.inspected)
        ∧ (db.require_inspected_to_sell = false ∨ room.state = RoomState.inspected)
        ∧ ∀ b ∈ db.blockings, b.room_id = room.id → b.status ≠ BlockingStatus.active) := by
  unfold is_sellable
  by_cases h1 : (room.state == RoomState.clean || room.state == RoomState.inspected) = true
  · by_cases h2 :
        (db.require_inspected_to_sell && !(room.state == RoomState.inspected)) = true
    · simp only [h1, h2, Bool.not_true, if_true, if_false, Bool.true_and]
      simp only [Bool.and_eq_true, Bool.not_eq_true', beq_eq_false_iff_ne] at h2
      simp only [Bool.or_eq_true, beq_iff_eq] at h1
      simp [h1, h2.1, h2.2]
    · by_cases h3 : ((db.blockings.filter
          (fun b => b.room_id == room.id && b.status == BlockingStatus.active)).isEmpty) = true
      · simp only [h1, h2, h3, Bool.not_true, Bool.not_false, if_false, if_true]
        simp only [Bool.or_eq_true, beq_iff_eq] at h1
        simp only [Bool.and_eq_true, not_and, Bool.not_eq_true', beq_eq_false_iff_ne,
          Bool.not_eq_true] at h2
        constructor
        · intro _
          refine ⟨h1, ?_, ?_⟩
          · by_cases hf : db.require_inspected_to_sell = true
            · exact Or.inr (by simpa using h2 hf)
            · exact Or.inl (by simpa using hf)
          · intro b hb hbr
            rw [List.isEmpty_iff] at h3
            have := List.filter_eq_nil_iff.mp h3 b hb
            simp only [Bool.and_eq_true, beq_iff_eq, not_and] at this
            exact fun hs => this hbr hs
        · intro _; rfl
      · simp only [h1, h2, h3, Bool.not_true, Bool.not_false, if_false, if_true]
        constructor
        · intro h; exact absurd h (by simp)
        · rintro ⟨-, -, hblk⟩
          exfalso
          apply h3
          rw [List.isEmpty_iff, List.filter_eq_nil_iff]
          intro b hb
          simp only [Bool.and_eq_true, beq_iff_eq, not_and]
          exact fun hbr => hblk b hb hbr
  · simp only [h1, Bool.not_false, if_true]
    simp only [Bool.or_eq_true, beq_iff_eq] at h1
    push_neg at h1
    constructor
    · intro h; exact absurd h (by simp)
    · rintro ⟨hs, -, -⟩
      exact absurd hs (by simpa using h1)

/-- C3: `create` is rejected with the conflict error listing every
conflicting interval — an existing blocking of the same room in status
`planned` or `active` whose inclusive range overlaps the new one
(`existing.start <= new.end` and `existing.end >= new.start`) — and no
interval is created (the transaction yields no new store). -/
theorem blockingCreate_overlap_rejected (db : DB) (v : BlockingCreateVals)
    (hd : v.start_date ≤ v.end_date)
    (hc : conflictingBlockings db v.room_id v.start_date v.end_date none ≠ []) :
    blockingCreate db v =
      .error (.overlapConflict
        ((conflictingBlockings db v.room_id v.start_date v.end_date none).map
          (fun b => b.id)))
    ∧ ∀ b, b ∈ conflictingBlockings db v.room_id v.start_date v.end_date none ↔
        (b ∈ db.blockings ∧ b.room_id = v.room_id
          ∧ (b.status = BlockingStatus.planned ∨ b.status = BlockingStatus.active)
          ∧ b.start_date ≤ v.end_date ∧ v.start_date ≤ b.end_date) := by
  refine ⟨?_, ?_⟩
  case refine_2 =>
    intro b
    simp only [conflictingBlockings, List.mem_filter, Bool.and_eq_true, Bool.or_eq_true,
      beq_iff_eq, decide_eq_true_eq, Bool.and_true]
    tauto
  have h1 : validate_dates v.start_date v.end_date = .ok () := by
    unfold validate_dates
    rw [if_neg (by omega)]
  have h2 : check_room_availability db v.room_id v.start_date v.end_date none =
      .error (.overlapConflict
        ((conflictingBlockings db v.room_id v.start_date v.end_date none).map
          (fun b => b.id))) := by
    unfold check_room_availability
    rw [if_neg (by simpa [List.isEmpty_iff] using hc)]
  unfold blockingCreate
  rw [h1, h2]
  rfl

/-- The claim's notion of an interval "closing inventory": every blocking
type closes inventory except `event` while `event_closes_inventory` is
off. -/
def closesInventorySpec (db : DB) (b : Blocking) : Prop :=
  ¬(b.blocking_type = BlockingType.event ∧ db.event_closes_inventory = false)

/-- C5: the availability query returns exactly the blockings of the room
with status `planned` or `active` overlapping the inclusive range, and
its boolean is true iff none of those blockings closes inventory. -/
theorem get_room_availability_spec (db : DB) (roomId : Nat) (s e : Int) :
    (∀ b, b ∈ (get_room_availability db roomId s e).2 ↔
        (b ∈ db.blockings ∧ b.room_id = roomId
          ∧ (b.status = BlockingStatus.planned ∨ b.status = BlockingStatus.active)
          ∧ b.start_date ≤ e ∧ s ≤ b.end_date))
    ∧ ((get_room_availability db roomId s e).1 = true ↔
        ∀ b ∈ (get_room_availability db roomId s e).2, ¬ closesInventorySpec db b) := by
  constructor
  · intro b
    simp only [get_room_availability, List.mem_filter, Bool.and_eq_true, Bool.or_eq_true,
      beq_iff_eq, decide_eq_true_eq]
    tauto
  · have hpred : ∀ b : Blocking,
        ((!(b.blocking_type == BlockingType.event)
          || (b.blocking_type == BlockingType.event && db.event_closes_inventory)) = true)
          ↔ closesInventorySpec db b := by
      intro b
      unfold closesInventorySpec
      by_cases hev : b.blocking_type = BlockingType.event
      · by_cases hf : db.event_closes_inventory = true <;> simp [hev, hf]
      · simp [hev]
    have hmain : (get_room_availability db roomId s e).1 = true ↔
        ∀ b ∈ (get_room_availability db roomId s e).2,
          ¬((!(b.blocking_type == BlockingType.event)
            || (b.blocking_type == BlockingType.event && db.event_closes_inventory)) = true) := by
      simp only [get_room_availability]
      rw [beq_iff_eq, List.length_eq_zero, List.filter_eq_nil_iff]
    rw [hmain]
    constructor
    · intro hh b hb hcl
      exact hh b hb ((hpred b).mpr hcl)
    · intro hh b hb hcl
      exact hh b hb ((hpred b).mp hcl)

/-- C8: a history write whose `old_state` equals its `new_state` and
whose maintenance-required entry is unchanged fails validation; no
history record is created. -/
theorem historyCreate_rejects_no_change (db : DB) (v : HistoryCreateVals)
    (h1 : v.old_state = v.new_state)
    (h2 : v.old_maintenance_required = v.new_maintenance_required) :
    historyCreate db v =
      .error (.validation ("No actual changes detected. History record not created.")) := by
  unfold historyCreate has_actual_changes
  simp [h1, h2]

/-- C10: `set_state` sets any whitelisted target regardless of the
current state — bypassing the transition table, appending no history
entry, and also reachable through `action_calendar_drop` — while a target
outside the whitelist is rejected with a `ValidationError` and the store
is unchanged (the transaction yields no new store). -/
theorem set_state_spec (db : DB) (roomId : Nat) (room : Room) (target : RoomState)
    (h : getRoom db roomId = some room) :
    (target ∈ setStateAllowed →
      set_state db roomId target =
        .ok (setRoom db roomId { room with state := target, last_status_change := db.now })
      ∧ (setRoom db roomId
          { room with state := target, last_status_change := db.now }).history = db.history
      ∧ ∀ sd ed : Int,
          action_calendar_drop db roomId (CalDropTarget.state target) sd ed ("") =
            set_state db roomId target)
    ∧ (target ∉ setStateAllowed →
      set_state db roomId target =
        .error (.validation ("Invalid state: " ++ target.toKey))) := by
  constructor
  · intro hmem
    have hset : set_state db roomId target =
        .ok (setRoom db roomId { room with state := target, last_status_change := db.now }) := by
      simp only [set_state, h]
      rw [if_neg (not_not_intro hmem)]
      rfl
    refine ⟨hset, rfl, ?_⟩
    intro sd ed
    simp only [action_calendar_drop]
    rw [if_pos hmem, hset]
    rfl
  · intro hmem
    simp only [set_state, h]
    rw [if_pos hmem]

/-- The nine values of the room `state` selection, in source order
(hotel_room.py lines 71-88). -/
def roomStateList : List RoomState :=
  [RoomState.clean, RoomState.check_in, RoomState.check_out, RoomState.dirty,
   RoomState.make_up_room, RoomState.inspected, RoomState.out_of_service,
   RoomState.out_of_order, RoomState.house_use]

/- Concrete fixtures used by the evaluation theorems and witnesses. -/

def roomFix : Room :=
  { id := 1, room_number := ("101"), state := RoomState.clean,
    maintenance_required := false, last_status_change := 0,
    status_change_reason := none, blocking_type := none, blocking_reason := none }

def blockMaint : Blocking :=
  { id := 1, name := ("Fix AC"), room_id := 1, start_date := 1, end_date := 5,
    blocking_type := BlockingType.maintenance, status := BlockingStatus.planned,
    reason := none }

def blockEvent : Blocking :=
  { blockMaint with name := ("Conference hold"), blocking_type := BlockingType.event }

def dbMaint : DB := { rooms := [roomFix], blockings := [blockMaint] }

def dbEvent : DB := { rooms := [roomFix], blockings := [blockEvent] }

def dbClean : DB := { rooms := [roomFix] }

def dbCheckIn : DB := { rooms := [{ roomFix with state := RoomState.check_in }] }

def dbTerminal : DB :=
  { rooms := [roomFix], blockings := [{ blockMaint with status := BlockingStatus.cancelled }] }

def blockCompleted : Blocking := { blockMaint with status := BlockingStatus.completed }

def dbCompleted : DB := { rooms := [roomFix], blockings := [blockCompleted] }

/-- The room of `dbEvent` after a successful event activation: blocking
info set, state untouched. -/
def roomFixEventBlocked : Room :=
  { roomFix with blocking_type := some BlockingType.event,
                 blocking_reason := some ("Conference hold") }

/-- `dbEvent` after `action_activate`: blocking active, room carrying the
blocking info. -/
def dbEventActivated : DB :=
  { dbEvent with
    rooms := [roomFixEventBlocked],
    blockings := [{ blockEvent with status := BlockingStatus.active }] }

/-- C2 (code bug): activating a blocking of type `maintenance` does not
set the room's housekeeping indicator to out-of-service — the side effect
writes the key `housekeeping_state`, which is not a field of
`hotel.room`, so the activation fails with Odoo's invalid-field
`ValueError` and rolls back.  Only the exception path of the claim —
type `event` with `event_closes_inventory` off — works: the status
becomes `active`, the room's blocking info is set, and the room state is
untouched (Scenario D). -/
theorem action_activate_maintenance_crashes :
    action_activate dbMaint 1 = .error (.invalidField ("housekeeping_state"))
    ∧ action_activate dbEvent 1 = .ok dbEventActivated := by
  exact ⟨rfl, rfl⟩

/-- C4 (code bug): an accepted transition out of `check_in` — the room
is in `check_in`, which is the valid source state of `action_check_out`
— appends no history row: the history model's `old_state` selection has
no `check_in` option, so the write fails with a selection `ValueError`
instead of logging exactly one entry.  (The rejection half of the claim
does hold: Scenario B's `start_cleaning` from `check_in` fails with the
invalid-transition `ValidationError` and changes nothing.) -/
theorem action_check_out_history_crashes :
    action_check_out dbCheckIn 1 ("Bob") ("") =
      .error (.invalidSelection ("old_state"))
    ∧ action_start_cleaning dbCheckIn 1 ("") =
      .error (.validation
        ("Room must be dirty to start cleaning. Current state: check_in")) := by
  exact ⟨rfl, rfl⟩

/-- C7 (code bug): checking in a guest from `clean` does not produce a
`clean → check_in` history row: the history model's `new_state`
selection has no `check_in` option, so `create_status_change` fails with
a selection `ValueError` after the state write, and the transaction
rolls back instead of succeeding. -/
theorem action_check_in_history_crashes :
    action_check_in dbClean 1 ("Alice") ("") =
      .error (.invalidSelection ("new_state")) := by
  exact rfl

/-- C9 (counterexample): the room state selection does not have eleven
values. -/
theorem roomStateList_not_eleven : ¬(roomStateList.length = 11) := by
  decide

/-- C9 (amended): every state a transition can produce is one of the
NINE defined selection values — the selection has nine entries, not
eleven. -/
theorem room_state_always_defined (db db2 : DB) (roomId : Nat) (t : RoomState)
    (_hok : set_state db roomId t = .ok db2) :
    (∀ r ∈ db2.rooms, r.state ∈ roomStateList) ∧ roomStateList.length = 9 := by
  have hall : ∀ s : RoomState, s ∈ roomStateList := by
    intro s
    cases s <;> simp [roomStateList]
  exact ⟨fun r _ => hall r.state, rfl⟩

/-- Updating the record found by id leaves it findable with its new
value. -/
theorem find?_id_map_update (l : List Blocking) (bid : Nat) (b1 : Blocking)
    (hid : (b1.id == bid) = true)
    (h : (l.find? (fun x => x.id == bid)).isSome = true) :
    (l.map (fun x => if x.id == bid then b1 else x)).find?
      (fun x => x.id == bid) = some b1 := by
  induction l with
  | nil => simp [List.find?] at h
  | cons a t ih =>
    rw [List.map_cons]
    by_cases ha : (a.id == bid) = true
    · rw [if_pos ha]
      exact List.find?_cons_of_pos _ hid
    · rw [if_neg ha]
      have ha' : (a.id == bid) = false := by simpa using ha
      simp only [List.find?_cons, ha'] at h ⊢
      exact ih h

theorem getBlocking_setBlocking (db : DB) (bid : Nat) (b b1 : Blocking)
    (hb : getBlocking db bid = some b) (hid : b1.id = b.id) :
    getBlocking (setBlocking db bid b1) bid = some b1 := by
  have hb' : List.find? (fun x => x.id == bid) db.blockings = some b := hb
  have hbid0 := List.find?_some hb'
  have hbid : (b.id == bid) = true := by simpa using hbid0
  have hid2 : (b1.id == bid) = true := by rw [hid]; exact hbid
  unfold getBlocking setBlocking
  exact find?_id_map_update db.blockings bid b1 hid2 (by rw [hb']; rfl)

/-- C6 (amended): there is no terminal-status guard on `complete` or
`cancel`.  A repeated call on an already-terminal interval is not
rejected with an `AlreadyTerminal` error: the status write is applied
again without any check, and the room-reset side effect is re-attempted
— which, in the current code, fails with Odoo's invalid-field
`ValueError` because the reset writes the nonexistent room field
`housekeeping_state` (so the room's housekeeping state is indeed not
reset a second time, but only because the reset write itself is the
failure). -/
theorem complete_cancel_no_terminal_guard (db : DB) (bid : Nat) (b : Blocking)
    (room : Room) (hb : getBlocking db bid = some b)
    (ht : b.status = BlockingStatus.completed ∨ b.status = BlockingStatus.cancelled)
    (hr : getRoom db b.room_id = some room) :
    action_complete db bid = .error (.invalidField ("housekeeping_state"))
    ∧ action_cancel db bid = .error (.invalidField ("housekeeping_state")) := by
  have hna : (b.status == BlockingStatus.active) = false := by
    rcases ht with h | h <;> simp [h]
  have step : ∀ st : BlockingStatus, (st == BlockingStatus.active) = false →
      blockingWrite db bid { status := some st } =
        .ok (setBlocking db bid (b.applyVals { status := some st })) := by
    intro st hst
    simp only [blockingWrite, hb, Blocking.applyVals]
    simp [hna, hst]
    rfl
  have hget : ∀ st : BlockingStatus,
      getBlocking (setBlocking db bid (b.applyVals { status := some st })) bid =
        some (b.applyVals { status := some st }) := by
    intro st
    exact getBlocking_setBlocking db bid b _ hb rfl
  have hroom : ∀ st : BlockingStatus,
      getRoom (setBlocking db bid (b.applyVals { status := some st }))
        (b.applyVals { status := some st }).room_id = some room := by
    intro st
    exact hr
  constructor
  · show (blockingWrite db bid { status := some BlockingStatus.completed } >>= fun db₁ =>
        match getBlocking db₁ bid with
        | none => .ok db₁
        | some b => roomWriteInDB db₁ b.room_id deactivationImpactVals) = _
    rw [step BlockingStatus.completed (by decide)]
    show (match getBlocking (setBlocking db bid
        (b.applyVals { status := some BlockingStatus.completed })) bid with
      | none => _
      | some b => _) = _
    rw [hget BlockingStatus.completed]
    show roomWriteInDB _ _ deactivationImpactVals = _
    simp only [roomWriteInDB, hroom BlockingStatus.completed]
    rfl
  · show (blockingWrite db bid { status := some BlockingStatus.cancelled } >>= fun db₁ =>
        match getBlocking db₁ bid with
        | none => .ok db₁
        | some b => roomWriteInDB db₁ b.room_id deactivationImpactVals) = _
    rw [step BlockingStatus.cancelled (by decide)]
    show (match getBlocking (setBlocking db bid
        (b.applyVals { status := some BlockingStatus.cancelled })) bid with
      | none => _
      | some b => _) = _
    rw [hget BlockingStatus.cancelled]
    show roomWriteInDB _ _ deactivationImpactVals = _
    simp only [roomWriteInDB, hroom BlockingStatus.cancelled]
    rfl

/-- C6 (counterexample): a second `cancel` on an already-cancelled
interval is not rejected with an `AlreadyTerminal` error — it fails with
the invalid-field `ValueError` from the room-reset write, and the very
same call on a non-terminal (`planned`) interval fails with the identical
error, so the failure is not a terminal-status guard at all. -/
theorem cancel_twice_not_already_terminal :
    action_cancel dbTerminal 1 = .error (.invalidField ("housekeeping_state"))
    ∧ action_cancel dbMaint 1 = .error (.invalidField ("housekeeping_state")) := by
  exact ⟨rfl, rfl⟩

/-- C6 witness: the no-terminal-guard theorem applied to a concrete
completed interval. -/
theorem complete_cancel_no_terminal_guard_witness :
    action_complete dbCompleted 1 = .error (.invalidField ("housekeeping_state"))
    ∧ action_cancel dbCompleted 1 = .error (.invalidField ("housekeeping_state")) :=
  complete_cancel_no_terminal_guard dbCompleted 1 blockCompleted roomFix rfl
    (Or.inl rfl) rfl

/- Witness fixtures. -/

def dbRoomOnly : DB := { rooms := [roomFix] }

def v1C3 : BlockingCreateVals :=
  { name := ("First block"), room_id := 1, start_date := 1, end_date := 5,
    blocking_type := BlockingType.maintenance }

def blockFirstCreated : Blocking :=
  { id := 1, name := ("First block"), room_id := 1, start_date := 1, end_date := 5,
    blocking_type := BlockingType.maintenance, status := BlockingStatus.planned,
    reason := none }

def dbAfterFirst : DB :=
  { dbRoomOnly with blockings := [blockFirstCreated], next_blocking_id := 2 }

def v2C3 : BlockingCreateVals :=
  { name := ("Second block"), room_id := 1, start_date := 3, end_date := 10,
    blocking_type := BlockingType.maintenance }

/-- C3 witness (Scenario C round trip): the first create succeeds in
status `planned`; the second, overlapping create on the same room is
rejected with the conflict error naming the first interval. -/
theorem blockingCreate_overlap_rejected_witness :
    blockingCreate dbRoomOnly v1C3 = .ok dbAfterFirst
    ∧ v2C3.start_date ≤ v2C3.end_date
    ∧ conflictingBlockings dbAfterFirst v2C3.room_id v2C3.start_date v2C3.end_date none ≠ []
    ∧ blockingCreate dbAfterFirst v2C3 = .error (.overlapConflict [1]) := by
  refine ⟨rfl, by decide, by decide, ?_⟩
  exact (blockingCreate_overlap_rejected dbAfterFirst v2C3 (by decide) (by decide)).1

def dbBlank : DB := {}

def histValsNoChange : HistoryCreateVals :=
  { room_id := 1, change_type := ChangeType.fo,
    old_state := some RoomState.clean, new_state := some RoomState.clean,
    old_maintenance_required := some false, new_maintenance_required := some false }

/-- C8 witness: a no-change history write at a concrete record is
rejected. -/
theorem historyCreate_rejects_no_change_witness :
    histValsNoChange.old_state = histValsNoChange.new_state
    ∧ histValsNoChange.old_maintenance_required = histValsNoChange.new_maintenance_required
    ∧ historyCreate dbBlank histValsNoChange =
        .error (.validation ("No actual changes detected. History record not created.")) :=
  ⟨rfl, rfl, historyCreate_rejects_no_change dbBlank histValsNoChange rfl rfl⟩

def dbCleanDirty : DB :=
  setRoom dbClean 1 { roomFix with state := RoomState.dirty, last_status_change := 0 }

/-- C9 witness: after a concrete `set_state` run every stored room state
is among the nine defined values. -/
theorem room_state_always_defined_witness :
    (∀ r ∈ dbCleanDirty.rooms, r.state ∈ roomStateList) ∧ roomStateList.length = 9 :=
  room_state_always_defined dbClean dbCleanDirty 1 RoomState.dirty rfl

def roomCheckIn : Room := { roomFix with state := RoomState.check_in }

def roomCheckInDirty : Room :=
  { roomCheckIn with state := RoomState.dirty, last_status_change := 0 }

/-- C10 witness: on a concrete room in `check_in`, `set_state` jumps
straight to `dirty` (also through `action_calendar_drop`) with no history
row, while the non-whitelisted target `check_out` is rejected. -/
theorem set_state_spec_witness :
    (set_state dbCheckIn 1 RoomState.dirty = .ok (setRoom dbCheckIn 1 roomCheckInDirty)
      ∧ (setRoom dbCheckIn 1 roomCheckInDirty).history = dbCheckIn.history
      ∧ action_calendar_drop dbCheckIn 1 (CalDropTarget.state RoomState.dirty) 0 0 ("")
          = set_state dbCheckIn 1 RoomState.dirty)
    ∧ set_state dbCheckIn 1 RoomState.check_out =
        .error (.validation ("Invalid state: " ++ RoomState.check_out.toKey)) := by
  have h1 := (set_state_spec dbCheckIn 1 roomCheckIn RoomState.dirty rfl).1 (by decide)
  have h2 := (set_state_spec dbCheckIn 1 roomCheckIn RoomState.check_out rfl).2 (by decide)
  exact ⟨⟨h1.1, h1.2.1, h1.2.2 0 0⟩, h2⟩

end HotelCore
